import Mathlib

/-!
Shallow embedding of the Jarvis voice-assistant backend orchestrator
(`backend/app/services/orchestrator.py`) and of the calendar collaborator
(`backend/app/services/calendar_tool.py`), together with theorems settling
the frozen claims about intent routing, the confidence-gated fallback,
streaming delegation and error handling.

External collaborators are modelled as explicit outcome parameters:
the Gemini classifier as a `ClassifierOutcome` (a result dictionary with
optional `intent` and `confidence` keys, or a raised exception), the
streaming text generator as a `StreamOutcome` (the chunks it emits, and
whether it raises after emitting them), and the calendar service as a
`CalendarOutcome` (the event list returned by `get_today_events`, or an
exception raised while obtaining the calendar tool). Confidence scores are
embedded as rationals; the dictionaries produced by the handlers are
embedded as a small JSON-like value type.
-/

namespace Jarvis

/-- JSON-like values, embedding the Python dictionaries that handlers
return in their `data` field. -/
inductive JValue where
  | str (s : String)
  | num (n : Int)
  | arr (xs : List JValue)
  | obj (fields : List (String × JValue))

/-- The `type` / `data` / `message` triple every handler returns. -/
structure HandlerResponse where
  type : String
  data : JValue
  message : String

/-- A simplified calendar event as produced by
`CalendarTool.get_today_events` (orchestrator side always sees all five
keys populated). `end` is a Lean keyword, hence the field name `end_`. -/
structure Event where
  id : String
  summary : String
  start : String
  end_ : String
  location : String

/-- Outcome of the calendar collaborator as observed by a handler:
either `get_today_events()` returns a list of events (possibly empty;
the method itself catches API errors and returns `[]`), or obtaining or
querying the calendar tool raises an exception carrying message `msg`. -/
inductive CalendarOutcome where
  | ok (events : List Event)
  | error (msg : String)

/-- Per-request environment for the handlers: the calendar outcome and
the current date string `datetime.now().strftime("%Y-%m-%d")`. -/
structure Env where
  calendar : CalendarOutcome
  today : String

/-- Outcome of `gemini_service.classify_intent(transcript)`: either a
result dictionary whose `intent` and `confidence` keys may each be
missing, or a raised exception. -/
inductive ClassifierOutcome where
  | ok (intent : Option String) (confidence : Option ℚ)
  | error

/-- Outcome of `gemini_service.generate_response_stream(transcript)`:
the chunks emitted, and whether the generator raises after them. -/
inductive StreamOutcome where
  | ok (chunks : List String)
  | errorAfter (chunks : List String)

/-- Characters removed by Python `str.strip()` with no argument. -/
def pyIsSpace (c : Char) : Bool :=
  c == ' ' || c == '\t' || c == '\n' || c == '\r' || c == '\x0b' || c == '\x0c'

/-- Does the first list start with the second one? -/
def startsWithList : List Char → List Char → Bool
  | _, [] => true
  | [], _ :: _ => false
  | a :: as, b :: bs => a == b && startsWithList as bs

/-- Does `needle` occur contiguously inside the second list? -/
def infixOfList (needle : List Char) : List Char → Bool
  | [] => needle.isEmpty
  | c :: t => startsWithList (c :: t) needle || infixOfList needle t

/-- Python substring test `needle in hay`. -/
def strContains (hay needle : String) : Bool :=
  infixOfList needle.data hay.data

/-- Left-to-right non-overlapping replacement of `pat` by `repl`, the
semantics of Python `str.replace`; `fuel` bounds the recursion and is
called with the length of the list, which suffices because every step
consumes at least one character. -/
def replaceFuel (pat repl : List Char) : Nat → List Char → List Char
  | _, [] => []
  | 0, l => l
  | fuel + 1, c :: t =>
    if startsWithList (c :: t) pat && !pat.isEmpty then
      repl ++ replaceFuel pat repl fuel (t.drop (pat.length - 1))
    else c :: replaceFuel pat repl fuel t

/-- Python `s.replace(pat, repl)` for a non-empty `pat`. -/
def replaceAll (s pat repl : String) : String :=
  ⟨replaceFuel pat.data repl.data s.data.length s.data⟩

/-- Python `str.strip()`: whitespace removed from both ends. -/
def pyStrip (s : String) : String :=
  ⟨((s.data.dropWhile pyIsSpace).reverse.dropWhile pyIsSpace).reverse⟩

/-- Python `str.lower()` (modelled on ASCII letters, the alphabet of
every intent label and event summary in this development). -/
def toLowerStr (s : String) : String :=
  ⟨s.data.map Char.toLower⟩

/-- Split on a single-character separator, the semantics of Python
`str.split(sep)` for one-character `sep`. -/
def splitOnChar (sep : Char) : List Char → List (List Char)
  | [] => [[]]
  | c :: t =>
    match splitOnChar sep t with
    | [] => [[]]
    | h :: r => if c == sep then [] :: h :: r else (c :: h) :: r

/-- Handler `_handle_get_weather`: fixed mock weather payload. -/
def handle_get_weather (_transcript : String) : HandlerResponse :=
  { type := "weather"
  , data := .obj [("location", .str "San Francisco"), ("temperature", .num 72),
                  ("unit", .str "fahrenheit"), ("condition", .str "Sunny"),
                  ("humidity", .num 65), ("wind_speed", .num 8)]
  , message := "It\x27s currently 72°F and sunny in San Francisco with light winds." }

/-- Handler `_handle_add_task`: strips the words "add" and
"to my todo list" from the transcript and confirms a mock task. -/
def handle_add_task (transcript : String) : HandlerResponse :=
  let task_text := pyStrip (replaceAll (replaceAll transcript "add" "") "to my todo list" "")
  { type := "task"
  , data := .obj [("task_id", .str "mock_task_123"), ("task_text", .str task_text),
                  ("created_at", .str "2025-12-19T14:48:00Z"), ("status", .str "pending")]
  , message := "I\x27ve added \x27" ++ task_text ++ "\x27 to your task list." }

/-- Two-digit numeric field of an ISO timestamp (`['0','9']` ↦ `9`). -/
def digit2 : List Char → Option Nat
  | [a, b] =>
    if a.isDigit && b.isDigit then some ((a.toNat - 48) * 10 + (b.toNat - 48)) else none
  | _ => none

/-- Hour and minute of the time part of an ISO timestamp, dropping a
trailing UTC-offset suffix, as `datetime.fromisoformat` accepts it. -/
def timeHourMin (tm : List Char) : Option (Nat × Nat) :=
  let core := (splitOnChar '-' ((splitOnChar '+' tm).headD tm)).headD tm
  match splitOnChar ':' core with
  | [h, m] =>
    match digit2 h, digit2 m with
    | some hh, some mm => if hh ≤ 23 && mm ≤ 59 then some (hh, mm) else none
    | _, _ => none
  | [h, m, sec] =>
    let sint := (splitOnChar '.' sec).headD sec
    match digit2 h, digit2 m, digit2 sint with
    | some hh, some mm, some ss =>
        if hh ≤ 23 && mm ≤ 59 && ss ≤ 59 then some (hh, mm) else none
    | _, _, _ => none
  | _ => none

/-- Hour and minute extracted by
`datetime.fromisoformat(start_str.replace("Z", "+00:00"))`, modelled for
ISO-8601 strings `YYYY-MM-DDTHH:MM[:SS[.ffffff]][offset]`; `none` means
the parse raises (exact per-month day validation is elided — no claim
depends on it). -/
def isoHourMin (s0 : String) : Option (Nat × Nat) :=
  let s := replaceFuel ['Z'] ("+00:00".data) s0.data.length s0.data
  match splitOnChar 'T' s with
  | [d, tm] =>
    match splitOnChar '-' d with
    | [y, mo, da] =>
      if y.length = 4 && y.all Char.isDigit then
        match digit2 mo, digit2 da with
        | some m, some dd =>
            if 1 ≤ m && m ≤ 12 && 1 ≤ dd && dd ≤ 31 then timeHourMin tm else none
        | _, _ => none
      else none
    | _ => none
  | _ => none

/-- Left-pad a number below 100 to two digits, as `%I` / `%M` print. -/
def two (n : Nat) : String :=
  if n < 10 then "0" ++ toString n else toString n

/-- `strftime("%I:%M %p").lstrip("0")`: twelve-hour clock with AM/PM and
the leading zeros of the hour stripped. -/
def formatClock (hh mm : Nat) : String :=
  let h12 := if hh % 12 = 0 then 12 else hh % 12
  let ap := if hh < 12 then "AM" else "PM"
  ⟨(two h12 ++ ":" ++ two mm ++ " " ++ ap).data.dropWhile (· == '0')⟩

/-- Time-description branch inside `summarize_events`: empty start means
"unknown time"; a start without `T` is an all-day event; otherwise the
parsed clock time, or "unknown time" when parsing raises. -/
def formatStartTime (start : String) : String :=
  if start.data.isEmpty then "unknown time"
  else if strContains start "T" then
    match isoHourMin start with
    | some (hh, mm) => formatClock hh mm
    | none => "unknown time"
  else "all day"

/-- Python `", ".join(xs)`. -/
def joinSep (sep : String) : List String → String
  | [] => ""
  | [x] => x
  | x :: xs => x ++ sep ++ joinSep sep xs

/-- `CalendarTool.summarize_events`: human-readable summary of a list of
events (events reaching it from `get_today_events` always carry their
`summary` key, so the `"Untitled"` dictionary default never fires). -/
def summarize_events (events : List Event) : String :=
  if events.isEmpty then "You have no events scheduled for today."
  else
    let event_count := events.length
    let summary :=
      if event_count = 1 then "You have 1 event today: "
      else "You have " ++ toString event_count ++ " events today: "
    let event_descriptions :=
      events.map (fun e => e.summary ++ " at " ++ formatStartTime e.start)
    summary ++ joinSep ", " event_descriptions ++ "."

/-- Encoding of a simplified event dictionary into the `data` field. -/
def eventToJValue (e : Event) : JValue :=
  .obj [("id", .str e.id), ("summary", .str e.summary), ("start", .str e.start),
        ("end", .str e.end_), ("location", .str e.location)]

/-- `_get_mock_daily_summary`: the fixed mock summary payload. -/
def get_mock_daily_summary (today : String) : HandlerResponse :=
  { type := "summary"
  , data := .obj [("date", .str today), ("tasks_completed", .num 5),
                  ("tasks_pending", .num 3), ("meetings_attended", .num 2),
                  ("highlights", .arr [.str "Completed project proposal",
                                       .str "Team standup at 10 AM",
                                       .str "Code review session"]),
                  ("source", .str "mock_data")]
  , message := "Today you completed 5 tasks and attended 2 meetings. Great progress!" }

/-- Handler `_handle_daily_summary`: real calendar data when available
and non-empty, the mock summary when the event list is empty, and the
mock summary again when the calendar raises (caught by the handler). -/
def handle_daily_summary (env : Env) (_transcript : String) : HandlerResponse :=
  match env.calendar with
  | .error _ => get_mock_daily_summary env.today
  | .ok events =>
    if events.isEmpty then get_mock_daily_summary env.today
    else
      { type := "summary"
      , data := .obj [("date", .str env.today),
                      ("events", .arr (events.map eventToJValue)),
                      ("event_count", .num events.length),
                      ("source", .str "google_calendar")]
      , message := summarize_events events }

/-- Message of the `AttributeError` raised at
`calendar_tool.delete_event(...)`: `CalendarTool` defines no
`delete_event` method, so the attribute lookup raises and the handler
except-clause turns it into an error response. -/
def attributeErrorMsg : String :=
  "\x27CalendarTool\x27 object has no attribute \x27delete_event\x27"

/-- Handler `_handle_delete_calendar_event`. The source looks up a
matching event by substring of its lower-cased summary in the
lower-cased transcript, then calls `calendar_tool.delete_event`; since
`CalendarTool` has no such method the call raises `AttributeError`,
which the except-clause converts into the trouble message, so the
confirmation branch of the source is unreachable with the real
collaborator. -/
def handle_delete_calendar_event (env : Env) (transcript : String) : HandlerResponse :=
  match env.calendar with
  | .error msg =>
    { type := "calendar_delete", data := .obj [("error", .str msg)]
    , message := "I had trouble deleting that event. Please try again." }
  | .ok events =>
    if events.isEmpty then
      { type := "calendar_delete", data := .obj [("error", .str "No events found")]
      , message := "You don\x27t have any events today to delete." }
    else
      let transcript_lower := toLowerStr transcript
      match events.find? (fun e =>
          !((toLowerStr e.summary).data.isEmpty)
            && strContains transcript_lower (toLowerStr e.summary)) with
      | none =>
        let event_names := events.map (·.summary)
        { type := "calendar_delete"
        , data := .obj [("available_events", .arr (event_names.map .str))]
        , message := "I couldn\x27t find that event. You have: "
                       ++ joinSep ", " event_names ++ "." }
      | some _matching =>
        { type := "calendar_delete", data := .obj [("error", .str attributeErrorMsg)]
        , message := "I had trouble deleting that event. Please try again." }

/-- Handler `_handle_learn`: fixed mock educational payload. -/
def handle_learn (_transcript : String) : HandlerResponse :=
  { type := "educational"
  , data := .obj [("topic", .str "General Knowledge"),
                  ("summary", .str "This is a mock educational response."),
                  ("key_points", .arr [.str "Educational content would go here",
                                       .str "Retrieved from knowledge base",
                                       .str "Structured for easy understanding"])]
  , message := "Here\x27s what I found about your question. This is a mock response that would contain educational content." }

/-- Handler `_handle_general_chat`: fixed mock conversational payload. -/
def handle_general_chat (_transcript : String) : HandlerResponse :=
  { type := "conversation"
  , data := .obj [("response_type", .str "casual"), ("context", .str "general_chat")]
  , message := "I\x27m here to help! This is a mock conversational response. How can I assist you today?" }

/-- The dictionary lookup `handlers.get(intent, self._handle_general_chat)`
followed by the handler call: string-keyed dispatch whose default is the
general-chat handler. -/
def dispatch (env : Env) (intent transcript : String) : HandlerResponse :=
  if intent = "GET_WEATHER" then handle_get_weather transcript
  else if intent = "ADD_TASK" then handle_add_task transcript
  else if intent = "DAILY_SUMMARY" then handle_daily_summary env transcript
  else if intent = "DELETE_CALENDAR_EVENT" then handle_delete_calendar_event env transcript
  else if intent = "LEARN" then handle_learn transcript
  else handle_general_chat transcript

/-- `_route_to_handler`: re-binds the intent to `GENERAL_CHAT` when
`confidence < 0.7`, then dispatches. -/
def route_to_handler (env : Env) (intent transcript : String) (confidence : ℚ) : HandlerResponse :=
  dispatch env (if confidence < 7/10 then "GENERAL_CHAT" else intent) transcript

/-- The dictionary returned by `process_transcript`. -/
structure OrchestrationResult where
  transcript : String
  intent : String
  confidence : ℚ
  handler_response : HandlerResponse

/-- `process_transcript`: classifies, routes, and assembles the result;
a classifier exception is caught and replaced by the degraded
general-chat result. Note the returned `intent` field is the raw
classified label: the threshold override inside `_route_to_handler`
only re-binds that call\x27s local variable. -/
def process_transcript (env : Env) (cls : ClassifierOutcome) (transcript : String) :
    OrchestrationResult :=
  match cls with
  | .error =>
    { transcript := transcript, intent := "GENERAL_CHAT", confidence := 0
    , handler_response := handle_general_chat transcript }
  | .ok i c =>
    let intent := i.getD "GENERAL_CHAT"
    let confidence := c.getD (1/2)
    { transcript := transcript, intent := intent, confidence := confidence
    , handler_response := route_to_handler env intent transcript confidence }

/-- One `(chunk, intent, confidence)` triple yielded by the streaming
orchestrator. -/
structure Chunk where
  text : String
  intent : String
  confidence : ℚ

/-- The fallback chunk yielded by the except-clause of
`process_transcript_stream`. -/
def fallbackChunk : Chunk :=
  { text := "I\x27m having trouble processing that right now."
  , intent := "GENERAL_CHAT", confidence := 0 }

/-- `process_transcript_stream`: the whole list of chunks the async
generator yields. Classification failure yields only the fallback
chunk; with the effective intent `GENERAL_CHAT` it re-emits the
upstream chunks tagged `(intent, confidence)`, appending the fallback
chunk when the upstream generator raises mid-stream; any other
effective intent yields the single handler message. -/
def process_transcript_stream (env : Env) (cls : ClassifierOutcome)
    (stream : StreamOutcome) (transcript : String) : List Chunk :=
  match cls with
  | .error => [fallbackChunk]
  | .ok i c =>
    let intent0 := i.getD "GENERAL_CHAT"
    let confidence := c.getD (1/2)
    let intent := if confidence < 7/10 then "GENERAL_CHAT" else intent0
    if intent = "GENERAL_CHAT" then
      match stream with
      | .ok chunks =>
          chunks.map (fun t => { text := t, intent := intent, confidence := confidence })
      | .errorAfter chunks =>
          chunks.map (fun t => { text := t, intent := intent, confidence := confidence })
            ++ [fallbackChunk]
    else
      [{ text := (route_to_handler env intent transcript confidence).message
       , intent := intent, confidence := confidence }]

/-- The effective (post-threshold) intent determined by a classifier
outcome, stated from the spec for the claim statements. -/
def effectiveIntent (cls : ClassifierOutcome) : String :=
  match cls with
  | .error => "GENERAL_CHAT"
  | .ok i c =>
    if c.getD (1/2) < 7/10 then "GENERAL_CHAT" else i.getD "GENERAL_CHAT"

/-- The documented intent-to-response-type mapping, with the out-of-set
default `conversation`, stated from the spec for the claim statements. -/
def intentType (intent : String) : String :=
  if intent = "GET_WEATHER" then "weather"
  else if intent = "ADD_TASK" then "task"
  else if intent = "DAILY_SUMMARY" then "summary"
  else if intent = "DELETE_CALENDAR_EVENT" then "calendar_delete"
  else if intent = "LEARN" then "educational"
  else "conversation"

/-- Classifier outcomes admitted by claim C9: a successful result either
carries a confidence in `[0, 1]` or lacks the key; errors are arbitrary. -/
def ValidOutcome : ClassifierOutcome → Prop
  | .ok _ (some c) => 0 ≤ c ∧ c ≤ 1
  | _ => True


/-! ## Helper lemmas -/

theorem handle_daily_summary_type (env : Env) (t : String) :
    (handle_daily_summary env t).type = "summary" := by
  unfold handle_daily_summary
  cases env.calendar with
  | error msg => rfl
  | ok events => dsimp only; split <;> rfl

theorem handle_delete_calendar_event_type (env : Env) (t : String) :
    (handle_delete_calendar_event env t).type = "calendar_delete" := by
  unfold handle_delete_calendar_event
  cases env.calendar with
  | error msg => rfl
  | ok events =>
    dsimp only
    split
    · rfl
    · split <;> rfl

theorem dispatch_type (env : Env) (intent t : String) :
    (dispatch env intent t).type = intentType intent := by
  unfold dispatch intentType
  split
  · rfl
  · split
    · rfl
    · split
      · exact handle_daily_summary_type env t
      · split
        · exact handle_delete_calendar_event_type env t
        · split <;> rfl

theorem route_to_handler_of_lt (env : Env) (intent t : String) {c : ℚ}
    (h : c < 7/10) : route_to_handler env intent t c = handle_general_chat t := by
  unfold route_to_handler
  rw [if_pos h]
  rfl

theorem route_to_handler_of_ge (env : Env) (intent t : String) {c : ℚ}
    (h : ¬ c < 7/10) : route_to_handler env intent t c = dispatch env intent t := by
  unfold route_to_handler
  rw [if_neg h]

/-! ## Claim theorems -/

/-- Concrete environment used by closed counterexamples and witnesses:
no calendar events, a fixed current date. -/
def env0 : Env := { calendar := .ok [], today := "2025-01-01" }

/-- C1 counterexample: with the classifier returning `GET_WEATHER` at
confidence `0.3 < 0.7`, the `intent` field of the result of
`process_transcript` is the raw label `GET_WEATHER`, not
`GENERAL_CHAT` — the claim as stated is false. -/
theorem C1_counterexample :
    (3 : ℚ)/10 < 7/10 ∧
    (process_transcript env0 (.ok (some "GET_WEATHER") (some ((3 : ℚ)/10)))
        "what is the weather").intent = "GET_WEATHER" ∧
    "GET_WEATHER" ≠ "GENERAL_CHAT" := by
  refine ⟨by norm_num, rfl, by decide⟩

/-- C1 (amended): when confidence is below the 0.7 threshold the
dispatch falls back to the general-chat handler, but the `intent` field
of the `process_transcript` result retains the raw classified label —
the override inside `_route_to_handler` only affects dispatch, so the
raw pre-override classification is what the result reports. -/
theorem C1_raw_intent_reported (env : Env) (t i : String) (c : ℚ) (h : c < 7/10) :
    (process_transcript env (.ok (some i) (some c)) t).intent = i ∧
    (process_transcript env (.ok (some i) (some c)) t).handler_response
      = handle_general_chat t := by
  refine ⟨rfl, ?_⟩
  show route_to_handler env i t c = handle_general_chat t
  exact route_to_handler_of_lt env i t h

/-- C1 witness: the amended theorem applied at a concrete low-confidence
classification. -/
theorem C1_raw_intent_reported_witness :
    (3 : ℚ)/10 < 7/10 ∧
    ((process_transcript env0 (.ok (some "GET_WEATHER") (some ((3 : ℚ)/10))) "hello").intent
        = "GET_WEATHER" ∧
     (process_transcript env0 (.ok (some "GET_WEATHER") (some ((3 : ℚ)/10))) "hello").handler_response
        = handle_general_chat "hello") :=
  ⟨by norm_num, C1_raw_intent_reported env0 "hello" "GET_WEATHER" (3/10) (by norm_num)⟩

/-- C2: for every transcript and classifier outcome, the
`handler_response.type` of the `process_transcript` result is exactly
the documented mapping applied to the effective (post-threshold)
intent, with everything outside the closed six-label set (and every
fallback) landing on `conversation`. -/
theorem C2_type_determined_by_effective_intent (env : Env) (cls : ClassifierOutcome)
    (t : String) :
    (process_transcript env cls t).handler_response.type = intentType (effectiveIntent cls) := by
  cases cls with
  | error => rfl
  | ok i c =>
    show (route_to_handler env (i.getD "GENERAL_CHAT") t (c.getD (1/2))).type = _
    unfold route_to_handler effectiveIntent
    rw [dispatch_type]

/-- C3: confidence exactly `0.7` meets the threshold: the fallback
condition is a strict `confidence < 0.7`, so at `0.7` the classified
intent is kept for dispatch both by `process_transcript` (through
`_route_to_handler`) and by `process_transcript_stream`. -/
theorem C3_exact_threshold_keeps_intent (env : Env) (t i : String) (chunks : List String) :
    (process_transcript env (.ok (some i) (some (7/10))) t).handler_response
        = dispatch env i t ∧
    process_transcript_stream env (.ok (some i) (some (7/10))) (.ok chunks) t =
      (if i = "GENERAL_CHAT"
       then chunks.map (fun x => { text := x, intent := i, confidence := 7/10 })
       else [{ text := (dispatch env i t).message, intent := i, confidence := 7/10 }]) := by
  constructor
  · exact route_to_handler_of_ge env i t (by norm_num)
  · unfold process_transcript_stream
    simp only [Option.getD_some]
    rw [if_neg (by norm_num : ¬ (7/10 : ℚ) < 7/10)]
    by_cases hi : i = "GENERAL_CHAT"
    · rw [if_pos hi, if_pos hi]
    · rw [if_neg hi, if_neg hi,
        route_to_handler_of_ge env i t (by norm_num : ¬ (7/10 : ℚ) < 7/10)]

/-- C4: a classifier exception is caught by `process_transcript`, which
returns the verbatim transcript, intent `GENERAL_CHAT`, confidence `0`,
and the general-chat handler response of type `conversation`. -/
theorem C4_classifier_error_fallback (env : Env) (t : String) :
    process_transcript env .error t =
      { transcript := t, intent := "GENERAL_CHAT", confidence := 0
      , handler_response := handle_general_chat t } ∧
    (handle_general_chat t).type = "conversation" :=
  ⟨rfl, rfl⟩

/-- C5: streaming without exceptions: with effective intent
`GENERAL_CHAT` the generator re-emits every upstream chunk in emission
order, each tagged with the effective intent and the raw confidence;
for any other effective intent it yields exactly one chunk, equal to
the handler response message, with the same tagging. -/
theorem C5_streaming_normal_operation (env : Env) (i : Option String) (c : Option ℚ)
    (chunks : List String) (t : String) :
    process_transcript_stream env (.ok i c) (.ok chunks) t =
      if effectiveIntent (.ok i c) = "GENERAL_CHAT" then
        chunks.map (fun x =>
          { text := x, intent := "GENERAL_CHAT", confidence := c.getD (1/2) })
      else
        [{ text := (dispatch env (i.getD "GENERAL_CHAT") t).message
         , intent := i.getD "GENERAL_CHAT", confidence := c.getD (1/2) }] := by
  simp only [process_transcript_stream, effectiveIntent]
  by_cases h : c.getD (1/2) < 7/10
  · simp only [if_pos h, if_true]
  · simp only [if_neg h]
    by_cases hi : i.getD "GENERAL_CHAT" = "GENERAL_CHAT"
    · simp only [if_pos hi, hi, if_true]
    · simp only [if_neg hi]
      rw [route_to_handler_of_ge env _ t h]

/-- C6: any exception inside `process_transcript_stream` — the
classifier raising, or the upstream stream raising mid-emission — makes
the generator yield exactly one fallback chunk, the fixed apology
tagged `(GENERAL_CHAT, 0)`, as its final element, after which the
sequence terminates. -/
theorem C6_streaming_error_fallback (env : Env) (t : String) (s : StreamOutcome)
    (i : Option String) (c : Option ℚ) (chunks : List String)
    (h : effectiveIntent (.ok i c) = "GENERAL_CHAT") :
    process_transcript_stream env .error s t = [fallbackChunk] ∧
    process_transcript_stream env (.ok i c) (.errorAfter chunks) t =
      chunks.map (fun x =>
        { text := x, intent := "GENERAL_CHAT", confidence := c.getD (1/2) })
        ++ [fallbackChunk] := by
  refine ⟨rfl, ?_⟩
  simp only [effectiveIntent] at h
  simp only [process_transcript_stream, h, eq_self_iff_true, if_true]

/-- C6 witness: the theorem applied at a concrete high-confidence
general-chat classification whose upstream stream raises after one
chunk. -/
theorem C6_streaming_error_fallback_witness :
    effectiveIntent (.ok (some "GENERAL_CHAT") (some ((9 : ℚ)/10))) = "GENERAL_CHAT" ∧
    (process_transcript_stream env0 .error (.ok []) "t" = [fallbackChunk] ∧
     process_transcript_stream env0 (.ok (some "GENERAL_CHAT") (some ((9 : ℚ)/10)))
         (.errorAfter ["hi "]) "t" =
       ["hi "].map (fun x =>
         { text := x, intent := "GENERAL_CHAT", confidence := (some ((9 : ℚ)/10)).getD (1/2) })
         ++ [fallbackChunk]) :=
  have h : effectiveIntent (.ok (some "GENERAL_CHAT") (some ((9 : ℚ)/10))) = "GENERAL_CHAT" := by
    simp only [effectiveIntent, Option.getD_some, ite_self]
  ⟨h, C6_streaming_error_fallback env0 "t" (.ok []) (some "GENERAL_CHAT")
        (some ((9 : ℚ)/10)) ["hi "] h⟩

/-- Concrete environment whose calendar holds one event named
"standup", used to exercise the deletion handler. -/
def env7 : Env :=
  { calendar := .ok [{ id := "e1", summary := "standup"
                     , start := "2025-01-01T09:00:00Z"
                     , end_ := "2025-01-01T09:30:00Z", location := "" }]
  , today := "2025-01-01" }

/-- C7: evaluation of `_handle_delete_calendar_event` at a transcript
that names an existing event. `CalendarTool` defines no `delete_event`
method, so instead of invoking it and confirming the deletion, the
handler raises `AttributeError` at the call site, catches it, and
returns the trouble message with the error text in `data` — the
deletion-confirmation branch of the source is unreachable with the real
collaborator. -/
theorem C7_delete_event_missing :
    (handle_delete_calendar_event env7 "please delete standup").type = "calendar_delete" ∧
    (handle_delete_calendar_event env7 "please delete standup").message =
      "I had trouble deleting that event. Please try again." ∧
    (handle_delete_calendar_event env7 "please delete standup").data =
      .obj [("error", .str attributeErrorMsg)] ∧
    (handle_delete_calendar_event env7 "please delete standup").message ≠
      "I\x27ve deleted \x27standup\x27 from your calendar." := by
  refine ⟨rfl, rfl, rfl, by decide⟩

/-- C8: handlers are total — each invocation produces a full
`type`/`data`/`message` triple (totality holds by construction of the
embedding: every handler is a total function into `HandlerResponse`,
mirroring the source where each handler catches its own exceptions) —
and the daily-summary handler degrades to the fixed mock payload of
type `summary` both when the calendar collaborator raises and when it
returns an empty event list, while the deletion handler likewise stays
within type `calendar_delete` for every calendar outcome. -/
theorem C8_handlers_degrade_not_raise (today t msg : String) :
    handle_daily_summary { calendar := .error msg, today := today } t
        = get_mock_daily_summary today ∧
    handle_daily_summary { calendar := .ok [], today := today } t
        = get_mock_daily_summary today ∧
    (get_mock_daily_summary today).type = "summary" ∧
    (∀ cal : CalendarOutcome,
      (handle_delete_calendar_event { calendar := cal, today := today } t).type
        = "calendar_delete") :=
  ⟨rfl, rfl, rfl, fun _cal => handle_delete_calendar_event_type _ _⟩

/-- C9: for every classifier outcome admitted by the claim — a
successful classification with confidence in `[0, 1]`, a result missing
the confidence key, or a raised error — the `confidence` field of the
`process_transcript` result lies in `[0, 1]`. -/
theorem C9_confidence_in_unit_interval (env : Env) (t : String) (cls : ClassifierOutcome)
    (h : ValidOutcome cls) :
    0 ≤ (process_transcript env cls t).confidence ∧
      (process_transcript env cls t).confidence ≤ 1 := by
  cases cls with
  | error =>
    show (0 : ℚ) ≤ 0 ∧ (0 : ℚ) ≤ 1
    exact ⟨by norm_num, by norm_num⟩
  | ok i c =>
    cases c with
    | none =>
      show (0 : ℚ) ≤ 1/2 ∧ (1/2 : ℚ) ≤ 1
      exact ⟨by norm_num, by norm_num⟩
    | some cv => exact h

/-- C9 witness: the theorem applied at a concrete in-range confidence. -/
theorem C9_confidence_in_unit_interval_witness :
    ValidOutcome (.ok (some "LEARN") (some ((9 : ℚ)/10))) ∧
    (0 ≤ (process_transcript env0 (.ok (some "LEARN") (some ((9 : ℚ)/10))) "x").confidence ∧
     (process_transcript env0 (.ok (some "LEARN") (some ((9 : ℚ)/10))) "x").confidence ≤ 1) :=
  ⟨⟨by norm_num, by norm_num⟩,
   C9_confidence_in_unit_interval env0 "x" _ ⟨by norm_num, by norm_num⟩⟩

/-- C10: a classifier result missing the `intent` key is reported as
`GENERAL_CHAT`; one missing the `confidence` key defaults to `0.5`,
which is below the `0.7` threshold, so a missing confidence always
dispatches to the general-chat handler even for an in-set label — in
the non-streaming path the handler response is the general-chat one,
and in the streaming path every chunk is tagged `GENERAL_CHAT` at
confidence `0.5`. -/
theorem C10_missing_keys_default (env : Env) (t i : String) (c : ℚ)
    (chunks : List String) :
    (process_transcript env (.ok none (some c)) t).intent = "GENERAL_CHAT" ∧
    (process_transcript env (.ok (some i) none) t).confidence = 1/2 ∧
    ((1 : ℚ)/2 < 7/10) ∧
    (process_transcript env (.ok (some i) none) t).handler_response
        = handle_general_chat t ∧
    process_transcript_stream env (.ok (some i) none) (.ok chunks) t =
      chunks.map (fun x =>
        { text := x, intent := "GENERAL_CHAT", confidence := 1/2 }) := by
  refine ⟨rfl, rfl, by norm_num, ?_, ?_⟩
  · show route_to_handler env i t ((1 : ℚ)/2) = handle_general_chat t
    exact route_to_handler_of_lt env i t (by norm_num)
  · simp only [process_transcript_stream, Option.getD_none]
    simp only [if_pos (by norm_num : (1 : ℚ)/2 < 7/10), if_true]

end Jarvis
